import Mathlib

/-!
Shallow embedding of src/app.py: a service with two handlers,
`validate_mc_number` (carrier lookup against the FMCSA registry) and
`get_load_details` (load lookup in a local CSV file).

The outbound HTTP call of the carrier validator is modelled by an oracle
`registry : String → RegistryOutcome` giving, for each identifier sent, the
outcome of `requests.get`.  The CSV file of the load lookup is modelled by a
`FileState` (missing, empty, malformed, or a parsed table of rows).  A raised
`HTTPException(status_code, detail)` is modelled as `Except.error`.
-/

namespace App

/-- FastAPI HTTPException: an HTTP status code together with a detail string. -/
structure HTTPException where
  status : Nat
  detail : String
deriving DecidableEq

/-! ### Python string primitives used by app.py -/

/-- Truthiness of a Python value that is either `None` or a string:
`None` and the empty string are falsy. -/
def truthyStr : Option String → Bool
  | none => false
  | some s => s != ""

/-- Python `dict.get(key, default)` for a string-or-None valued field: the
default is used only when the KEY is absent, not when its value is `None`. -/
def pyGetD (field : Option (Option String)) (default : Option String) : Option String :=
  field.getD default

/-- Python `str.upper()` (ASCII; the identifiers handled here are ASCII). -/
def pyUpper (s : String) : String :=
  String.mk (s.data.map Char.toUpper)

/-- Python whitespace characters recognised by `str.strip()`. -/
def isPySpace (c : Char) : Bool :=
  c == ' ' || c == '\t' || c == '\n' || c == '\r' || c == '\x0b' || c == '\x0c'

/-- Python `str.strip()`: drop leading and trailing whitespace. -/
def pyStrip (s : String) : String :=
  String.mk (((s.data.dropWhile isPySpace).reverse.dropWhile isPySpace).reverse)

/-- Python `s.replace("MC-", "")`: remove every non-overlapping occurrence of
the pattern, scanning left to right. -/
def removeMCAux : List Char → List Char
  | 'M' :: 'C' :: '-' :: rest => removeMCAux rest
  | c :: rest => c :: removeMCAux rest
  | [] => []

/-- Python `s.replace("MC-", "")` on a string. -/
def removeMC (s : String) : String :=
  String.mk (removeMCAux s.data)

/-- Python `str.isdigit()` (ASCII decimal digits): nonempty and all digits. -/
def pyIsDigit (s : String) : Bool :=
  !s.data.isEmpty && s.data.all Char.isDigit

/-- app.py line 67: `clean_mc = mc_number.upper().replace("MC-", "").strip()`. -/
def normalize (mc_number : String) : String :=
  pyStrip (removeMC (pyUpper mc_number))

/-! ### The registry JSON body (carrier validator) -/

/-- The fields of the `carrier` object read by app.py.  Outer `none` = key
absent from the JSON object; `some none` = key present with value `null`;
`some (some s)` = key present with string value `s` (numeric values such as
`dotNumber` are modelled by their decimal string). -/
structure CarrierData where
  legalName : Option (Option String)
  dbaName : Option (Option String)
  dotNumber : Option (Option String)
  allowedToOperate : Option (Option String)
  oosDate : Option (Option String)
deriving DecidableEq

/-- The empty JSON object `{}` used as the default for `.get("carrier", {})`. -/
def emptyCarrierData : CarrierData :=
  { legalName := none, dbaName := none, dotNumber := none,
    allowedToOperate := none, oosDate := none }

/-- The value of the `carrier` key inside `content`: key absent, key present
with `null`, or a carrier object. -/
inductive CarrierField where
  | absent
  | null
  | obj (cd : CarrierData)
deriving DecidableEq

/-- The `content` object: its `carrier` key plus whether any other keys are
present (which is what makes the dict nonempty, hence truthy, in Python). -/
structure ContentObj where
  carrier : CarrierField
  hasOtherKeys : Bool
deriving DecidableEq

/-- The value of the top-level `content` key. -/
inductive ContentVal where
  | absent
  | null
  | obj (c : ContentObj)
deriving DecidableEq

/-- The parsed JSON body returned by the registry. -/
structure RegistryBody where
  content : ContentVal
deriving DecidableEq

/-- Python truthiness of `data.get("content", {})` (app.py line 116): falsy
when the key is absent, its value is `null`, or it is an empty dict. -/
def contentTruthy : ContentVal → Bool
  | .absent => false
  | .null => false
  | .obj c => decide (c.carrier ≠ CarrierField.absent) || c.hasOtherKeys

/-- app.py line 122: `data.get("content", {}).get("carrier", {})`.  For absent
content the outer default `{}` has no `carrier` key.  (The `.null` arm is
unreachable below: a null content is falsy and was rejected at line 116.) -/
def getCarrierField : ContentVal → CarrierField
  | .absent => .absent
  | .null => .absent
  | .obj c => c.carrier

/-- Outcome of the single outbound `requests.get` call: a timeout, another
transport error (with its message), or a received response with its HTTP
status and its body — `none` when the body is not parseable JSON. -/
inductive RegistryOutcome where
  | timeout
  | connError (msg : String)
  | response (status : Nat) (body : Option RegistryBody)

/-! ### The carrier response (app.py lines 147-169) -/

/-- The `carrier` object of a successful CarrierResponse. -/
structure CarrierOut where
  carrier_id : String
  status : String
  carrier_name : String
  dot_number : String
  mc_number : String
  status_reason : Option String
deriving DecidableEq

/-- The fixed `next_steps` block: static scripted text with `carrier_name`
interpolated into step 1 and sub-step 2a (app.py lines 159-167). -/
structure NextSteps where
  step1 : String
  step2a : String
  step2b : String
  step2c : String
  step2d : String
deriving DecidableEq

/-- app.py lines 159-167, verbatim, with the carrier name interpolated. -/
def nextStepsFor (carrier_name : String) : NextSteps :=
  { step1 := "Confirm you found the right carrier name. Ask user exactly this: \x27" ++ carrier_name ++ "?\x27. Then wait for user to respond."
    step2a := "If user confirms: move on to finding available loads, MAKE SURE you do not give them load information until you have verified they work for the carrier " ++ carrier_name ++ "."
    step2b := "It is possible that you may have transcribed the name incorrectly, so use your best judgement to decide if the name the caller gives is close enough to the carrier name you have. If so, you can consider it a match and move on to finding available loads."
    step2c := "If user denies: first, you must ask the user to repeat the name of the carrier they work for (\x27I\x27m sorry, I didn\x27t quite catch that. What\x27s the name of the carrier you work for?\x27). Wait for the user to provide the name again and check if it matches the carrier name you have."
    step2d := "If you still cannot verify the carrier name, ask the user for their MC / DOT number (\x27I\x27m sorry, what\x27s that MC number again?\x27). Wait for user to provide number again. Then search for the carrier again with new number the caller provides." }

/-- The CarrierResponse envelope: `success`, and the `data` dict holding the
carrier record, `transfer_contact` (always null) and the `next_steps` block. -/
structure CarrierResponse where
  success : Bool
  carrier : CarrierOut
  transfer_contact : Option String
  next_steps : NextSteps
deriving DecidableEq

/-- The catch-all error of both handlers (app.py lines 176-179 and 265-268). -/
def genericInternalError : HTTPException :=
  ⟨500, "An unexpected error occurred while processing your request"⟩

/-- app.py lines 126-169: field extraction, status derivation and response
assembly from the carrier section.  `str(dot_number)` on the (string-modelled)
value is the value itself. -/
def processCarrier (cd : CarrierData) (clean_mc : String) : Except HTTPException CarrierResponse :=
  let carrier_name := pyGetD cd.legalName (pyGetD cd.dbaName (some ""))
  let dot_number := pyGetD cd.dotNumber none
  if !truthyStr carrier_name || !truthyStr dot_number then
    .error ⟨502, "Incomplete carrier data received from FMCSA API"⟩
  else
    let name := carrier_name.getD ""
    let dot := dot_number.getD ""
    let is_authorized := pyGetD cd.allowedToOperate none == some "Y"
    let status := if is_authorized then "Active" else "Inactive"
    let status_reason :=
      if truthyStr (pyGetD cd.oosDate none) then some "Out of Service"
      else if !is_authorized then some "Not Authorized to Operate"
      else none
    .ok { success := true
          carrier := { carrier_id := dot, status := status, carrier_name := name,
                       dot_number := dot, mc_number := clean_mc,
                       status_reason := status_reason }
          transfer_contact := none
          next_steps := nextStepsFor name }

/-- app.py lines 79-169: handling of the outcome of the outbound call.  A
`carrier` key present with value `null` makes line 127 raise AttributeError,
which the outer catch-all converts to the generic 500. -/
def handleOutcome (outcome : RegistryOutcome) (clean_mc : String) : Except HTTPException CarrierResponse :=
  match outcome with
  | .timeout => .error ⟨504, "FMCSA API request timed out"⟩
  | .connError e => .error ⟨502, "Error connecting to FMCSA API: " ++ e⟩
  | .response status body =>
    if status = 404 then
      .error ⟨404, "Carrier with MC number " ++ clean_mc ++ " not found"⟩
    else if status = 401 then
      .error ⟨502, "Invalid FMCSA API key"⟩
    else if status ≠ 200 then
      .error ⟨502, "FMCSA API error: " ++ toString status⟩
    else
      match body with
      | none => .error ⟨502, "Invalid JSON response from FMCSA API"⟩
      | some data =>
        if !contentTruthy data.content then
          .error ⟨404, "No carrier data found for MC number: " ++ clean_mc⟩
        else
          match getCarrierField data.content with
          | .absent => processCarrier emptyCarrierData clean_mc
          | .null => .error genericInternalError
          | .obj cd => processCarrier cd clean_mc

/-- app.py lines 52-179: `validate_mc_number`.  `apiKey` is the module-level
`FMCSA_API_KEY` (lines 16-18 guarantee it is set and nonempty in a running
process); `registry` gives the outcome of the outbound call for each
identifier sent. -/
def validate_mc_number (apiKey : Option String) (registry : String → RegistryOutcome)
    (mc_number : String) : Except HTTPException CarrierResponse :=
  if !truthyStr apiKey then
    .error ⟨500, "FMCSA API key not configured"⟩
  else if mc_number = "" then
    .error ⟨400, "MC number is required"⟩
  else
    let clean_mc := normalize mc_number
    if !pyIsDigit clean_mc then
      .error ⟨400, "Invalid MC number format. Must contain only digits after removing \x27MC-\x27 prefix"⟩
    else
      handleOutcome (registry clean_mc) clean_mc

/-! ### The load lookup (app.py lines 181-268) -/

/-- A cell of the parsed CSV: a string, a number, or NaN (the pandas encoding
of a missing value). -/
inductive Cell where
  | str (s : String)
  | num (q : Rat)
  | nan
deriving DecidableEq

/-- `pd.isna` on a cell. -/
def pyIsNa : Cell → Bool
  | .nan => true
  | _ => false

/-- A row of the parsed CSV, as the dict produced by `row.to_dict()`:
column name to cell value.  Keys are unique; lookup takes the first binding. -/
def Row := List (String × Cell)

/-- Dict lookup on a row. -/
def rowGet (row : Row) (k : String) : Option Cell :=
  (List.find? (fun kv => kv.1 == k) row).map (fun kv => kv.2)

/-- app.py line 217: the row filter `df["reference_number"] == reference_number`
(exact, case-sensitive string equality against the cell). -/
def matchesRef (ref : String) (row : Row) : Bool :=
  decide (rowGet row "reference_number" = some (Cell.str ref))

/-- Python `s.startswith(pre)`. -/
def pyStartsWith (s pre : String) : Bool :=
  List.isPrefixOf pre.data s.data

/-- app.py line 230. -/
def requiredFields : List String :=
  ["reference_number", "origin", "destination", "equipment_type", "rate", "commodity"]

/-- app.py line 231: the required fields that are absent from the row or hold
a null/NaN value. -/
def missingFields (row : Row) : List String :=
  requiredFields.filter fun f =>
    match rowGet row f with
    | none => true
    | some c => pyIsNa c

/-- Decimal digits of a numeral. -/
def natOfDigits (l : List Char) : Nat :=
  l.foldl (fun n c => n * 10 + (c.toNat - 48)) 0

/-- Python `float(string)` on the common decimal forms: optional sign, integer
part, optional fraction, surrounding whitespace.  (Exponent, inf and nan
literals do not occur in the dataset and are not modelled.)  `none` models the
ValueError raised on a non-numeric string. -/
def parseFloat? (s : String) : Option Rat :=
  let t := (pyStrip s).data
  let sgn : Rat := match t with
    | '-' :: _ => -1
    | _ => 1
  let u := match t with
    | '-' :: rest => rest
    | '+' :: rest => rest
    | _ => t
  let intPart := u.takeWhile Char.isDigit
  match u.dropWhile Char.isDigit with
  | [] =>
    if intPart.isEmpty then none
    else some (sgn * (natOfDigits intPart : Rat))
  | '.' :: frac =>
    if frac.all Char.isDigit && !(intPart.isEmpty && frac.isEmpty) then
      some (sgn * ((natOfDigits intPart : Rat) + (natOfDigits frac : Rat) / ((10 : Rat) ^ frac.length)))
    else none
  | _ => none

/-- Python `float(cell)`.  (The `.nan` arm is unreachable where this is used:
the missing-fields check has already excluded NaN for the rate cell.) -/
def cellFloat? : Cell → Option Rat
  | .num q => some q
  | .str s => parseFloat? s
  | .nan => none

/-- Python `str(cell)`.  (Numeric rendering uses the Rat toString; the string
fields of the dataset are strings, so this arm is cosmetic.) -/
def cellStr : Cell → String
  | .str s => s
  | .num q => toString q
  | .nan => "nan"

/-- The LoadDetails model (app.py lines 29-35). -/
structure LoadDetails where
  reference_number : String
  origin : String
  destination : String
  equipment_type : String
  rate : Rat
  commodity : String
deriving DecidableEq

/-- The LoadResponse envelope (app.py lines 37-40). -/
structure LoadResponse where
  success : Bool
  data : Option LoadDetails
  error : Option String
deriving DecidableEq

/-- State of the CSV file at `csv_path` when the request runs: absent
(line 189), present but empty (EmptyDataError, line 198), present but
unparseable (ParserError, line 203), or parsed into a table of rows. -/
inductive FileState where
  | missing
  | emptyFile
  | malformed
  | table (df : List Row)

/-- app.py lines 181-268: `get_load_details`. -/
def get_load_details (fs : FileState) (reference_number : String) : Except HTTPException LoadResponse :=
  match fs with
  | .missing => .error ⟨503, "Load data file not available"⟩
  | .emptyFile => .error ⟨503, "Load data file is empty"⟩
  | .malformed => .error ⟨503, "Error parsing load data file"⟩
  | .table df =>
    if !pyStartsWith reference_number "LOAD" then
      .error ⟨400, "Invalid reference number format. Must start with \x27LOAD\x27"⟩
    else
      match df.filter (matchesRef reference_number) with
      | [] => .error ⟨404, "Load not found: " ++ reference_number⟩
      | row :: _ =>
        let missing := missingFields row
        if missing = [] then
          match cellFloat? ((rowGet row "rate").getD Cell.nan) with
          | none => .error ⟨500, "Error processing load data: could not convert string to float"⟩
          | some rate =>
            .ok { success := true
                  data := some
                    { reference_number := cellStr ((rowGet row "reference_number").getD Cell.nan)
                      origin := cellStr ((rowGet row "origin").getD Cell.nan)
                      destination := cellStr ((rowGet row "destination").getD Cell.nan)
                      equipment_type := cellStr ((rowGet row "equipment_type").getD Cell.nan)
                      rate := rate
                      commodity := cellStr ((rowGet row "commodity").getD Cell.nan) }
                  error := none }
        else
          .error ⟨500, "Missing required fields in load data: " ++ String.intercalate ", " missing⟩

/-- The HTTP status a handler outcome surfaces to the caller: the status of
the raised HTTPException, or 200 for a success body. -/
def resultStatus {α : Type} : Except HTTPException α → Nat
  | .error e => e.status
  | .ok _ => 200

/-! ### Concrete sample data used in witnesses -/

/-- A fully populated carrier section, as the registry returns it for an
active carrier. -/
def goodCarrier : CarrierData :=
  { legalName := some (some "ACME TRUCKING"), dbaName := none,
    dotNumber := some (some "7654321"),
    allowedToOperate := some (some "Y"), oosDate := none }

/-- A 200 body whose content holds `goodCarrier`. -/
def goodBody : RegistryBody := ⟨.obj ⟨.obj goodCarrier, false⟩⟩

/-- A registry that answers every identifier with the good 200 body. -/
def goodReg : String → RegistryOutcome :=
  fun _ => .response 200 (some goodBody)

/-- The response `validate_mc_number` builds from `goodCarrier` for the
normalized identifier 123456. -/
def goodResp : CarrierResponse :=
  { success := true
    carrier := { carrier_id := "7654321", status := "Active",
                 carrier_name := "ACME TRUCKING", dot_number := "7654321",
                 mc_number := "123456", status_reason := none }
    transfer_contact := none
    next_steps := nextStepsFor "ACME TRUCKING" }

/-- A complete dataset row for LOAD001. -/
def goodRow : Row :=
  [("reference_number", .str "LOAD001"), ("origin", .str "Dallas"),
   ("destination", .str "Miami"), ("equipment_type", .str "Van"),
   ("rate", .num 1500), ("commodity", .str "Steel")]

/-- The same row with the rate cell NaN (a missing value in the CSV). -/
def badRow : Row :=
  [("reference_number", .str "LOAD001"), ("origin", .str "Dallas"),
   ("destination", .str "Miami"), ("equipment_type", .str "Van"),
   ("rate", .nan), ("commodity", .str "Steel")]

/-- The LoadResponse produced for `goodRow`. -/
def goodLoadResp : LoadResponse :=
  { success := true
    data := some { reference_number := "LOAD001", origin := "Dallas",
                   destination := "Miami", equipment_type := "Van",
                   rate := 1500, commodity := "Steel" }
    error := none }

/-! ### Helper lemmas -/

/-- With a configured (nonempty) API key and a well-formed normalized
identifier, `validate_mc_number` reaches the outbound call on the normalized
identifier and returns its handled outcome. -/
theorem validate_eq_handleOutcome (key : String) (reg : String → RegistryOutcome)
    (mc : String) (hkey : key ≠ "") (hfmt : pyIsDigit (normalize mc) = true) :
    validate_mc_number (some key) reg mc = handleOutcome (reg (normalize mc)) (normalize mc) := by
  have hmc : ¬ mc = "" := by
    intro h
    subst h
    exact absurd hfmt (by decide)
  simp [validate_mc_number, truthyStr, hkey, hmc, hfmt]

/-- Every success of `processCarrier` carries the normalized identifier it was
given as `mc_number`. -/
theorem processCarrier_ok_mc (cd : CarrierData) (clean : String) (resp : CarrierResponse)
    (h : processCarrier cd clean = .ok resp) : resp.carrier.mc_number = clean := by
  simp only [processCarrier] at h
  split at h
  · simp at h
  · obtain rfl := Except.ok.inj h
    rfl

/-- Every success of `handleOutcome` carries the normalized identifier it was
given as `mc_number`. -/
theorem handleOutcome_ok_mc (outcome : RegistryOutcome) (clean : String)
    (resp : CarrierResponse) (h : handleOutcome outcome clean = .ok resp) :
    resp.carrier.mc_number = clean := by
  cases outcome with
  | timeout => simp [handleOutcome] at h
  | connError e => simp [handleOutcome] at h
  | response status body =>
    simp only [handleOutcome] at h
    split at h
    · simp at h
    · split at h
      · simp at h
      · split at h
        · simp at h
        · split at h
          · simp at h
          · split at h
            · simp at h
            · split at h
              · exact processCarrier_ok_mc _ _ _ h
              · simp at h
              · exact processCarrier_ok_mc _ _ _ h

/-- Every success of `validate_mc_number` is the handled outcome of the
outbound call on the normalized identifier. -/
theorem validate_ok_handleOutcome (apiKey : Option String)
    (reg : String → RegistryOutcome) (mc : String) (resp : CarrierResponse)
    (h : validate_mc_number apiKey reg mc = .ok resp) :
    handleOutcome (reg (normalize mc)) (normalize mc) = .ok resp := by
  simp only [validate_mc_number] at h
  split at h
  · simp at h
  · split at h
    · simp at h
    · split at h
      · simp at h
      · exact h

/-- Every LoadResponse returned by `get_load_details` has `success = true` and
`error = none`: all failures are raised HTTPExceptions. -/
theorem load_ok_success (fs : FileState) (ref : String) (r : LoadResponse)
    (h : get_load_details fs ref = .ok r) : r.success = true ∧ r.error = none := by
  cases fs with
  | missing => simp [get_load_details] at h
  | emptyFile => simp [get_load_details] at h
  | malformed => simp [get_load_details] at h
  | table df =>
    simp only [get_load_details] at h
    split at h
    · simp at h
    · split at h
      · simp at h
      · split at h
        · split at h
          · simp at h
          · obtain rfl := Except.ok.inj h
            exact ⟨rfl, rfl⟩
        · simp at h

/-! ### Claim C1 -/

/-- Claim C1, counterexample: a 200 registry response whose body is
content: carrier: (an empty object) — so the body lacks a content.carrier
section while content itself is present — makes `validate_mc_number` fail
with 502 (incomplete carrier data), not the 404 the claim requires. -/
theorem C1_counterexample :
    validate_mc_number (some "k")
        (fun _ => .response 200 (some ⟨.obj ⟨.obj emptyCarrierData, false⟩⟩)) "123" =
      .error ⟨502, "Incomplete carrier data received from FMCSA API"⟩ ∧
    resultStatus (validate_mc_number (some "k")
        (fun _ => .response 200 (some ⟨.obj ⟨.obj emptyCarrierData, false⟩⟩)) "123") ≠ 404 :=
  ⟨rfl, by decide⟩

/-- Claim C1, amended: the presence check is on the `content` key alone.  A
200 body whose content is absent, null, or an empty object yields 404; a 200
body whose content is a nonempty object but whose carrier section is absent
or an empty object yields 502 (incomplete carrier data), not 404. -/
theorem C1_amended_presence_check_on_content (key mc : String)
    (reg : String → RegistryOutcome) (body : RegistryBody)
    (hkey : key ≠ "") (hfmt : pyIsDigit (normalize mc) = true)
    (hreg : reg (normalize mc) = .response 200 (some body)) :
    (contentTruthy body.content = false →
      validate_mc_number (some key) reg mc =
        .error ⟨404, "No carrier data found for MC number: " ++ normalize mc⟩) ∧
    (∀ c : ContentObj, body.content = .obj c → contentTruthy body.content = true →
      (c.carrier = .absent ∨ c.carrier = .obj emptyCarrierData) →
      validate_mc_number (some key) reg mc =
        .error ⟨502, "Incomplete carrier data received from FMCSA API"⟩) := by
  have hv := validate_eq_handleOutcome key reg mc hkey hfmt
  rw [hreg] at hv
  have hproc : ∀ x : String, processCarrier emptyCarrierData x =
      .error ⟨502, "Incomplete carrier data received from FMCSA API"⟩ := fun _ => rfl
  constructor
  · intro hct
    rw [hv]
    simp [handleOutcome, hct]
  · intro c hc hct hcar
    rw [hc] at hct
    rw [hv]
    rcases hcar with hcar | hcar
    · simp [handleOutcome, hc, hct, getCarrierField, hcar, hproc]
    · simp [handleOutcome, hc, hct, getCarrierField, hcar, hproc]

/-- Claim C1, witness: a nonempty content object whose carrier key holds an
empty object, alongside other keys, yields the 502. -/
theorem C1_witness :
    validate_mc_number (some "k")
        (fun _ => .response 200 (some ⟨.obj ⟨.obj emptyCarrierData, true⟩⟩)) "124" =
      .error ⟨502, "Incomplete carrier data received from FMCSA API"⟩ :=
  (C1_amended_presence_check_on_content "k" "124" _ ⟨.obj ⟨.obj emptyCarrierData, true⟩⟩
      (by decide) (by decide) rfl).2
    ⟨.obj emptyCarrierData, true⟩ rfl (by decide) (Or.inr rfl)

/-! ### Claim C3 -/

/-- Claim C3, counterexample (negation of the claim): there is no input and
file state on which `get_load_details` returns a LoadResponse with
`success = false` and `error` populated — every failure is a raised
HTTPException instead. -/
theorem C3_counterexample :
    ¬ ∃ (fs : FileState) (ref : String) (r : LoadResponse),
        get_load_details fs ref = .ok r ∧ r.success = false ∧ r.error ≠ none := by
  rintro ⟨fs, ref, r, hok, hs, -⟩
  have h := (load_ok_success fs ref r hok).1
  rw [hs] at h
  exact absurd h (by decide)

/-- Claim C3, amended: the load-lookup endpoint never expresses failure via
the LoadResponse body fields: every LoadResponse it returns has
`success = true` and `error = none`, and all failures are HTTPExceptions
carrying an HTTP error status and a detail message. -/
theorem C3_amended_failures_via_http_status (fs : FileState) (ref : String)
    (r : LoadResponse) (h : get_load_details fs ref = .ok r) :
    r.success = true ∧ r.error = none :=
  load_ok_success fs ref r h

/-- Claim C3, witness: the amended statement at a concrete successful
lookup. -/
theorem C3_witness : goodLoadResp.success = true ∧ goodLoadResp.error = none :=
  C3_amended_failures_via_http_status (.table [goodRow]) "LOAD001" goodLoadResp rfl

/-! ### Claim C2 -/

/-- Claim C2, counterexample: for the non-LOAD reference number XYZ with the
dataset file missing, `get_load_details` raises 503 (file not available), not
the 400 the claim requires for every non-LOAD reference regardless of file
state. -/
theorem C2_counterexample :
    get_load_details .missing "XYZ" = .error ⟨503, "Load data file not available"⟩ ∧
    resultStatus (get_load_details .missing "XYZ") ≠ 400 :=
  ⟨rfl, by decide⟩

/-- Claim C2, amended: the reference-number format check runs only after the
dataset file is located and parsed.  Once the file parses (any table), every
reference not starting with LOAD yields 400 irrespective of the table
contents; a missing, empty, or malformed file yields 503 instead. -/
theorem C2_amended_format_check_after_read (df : List Row) (ref : String)
    (h : pyStartsWith ref "LOAD" = false) :
    get_load_details (.table df) ref =
      .error ⟨400, "Invalid reference number format. Must start with \x27LOAD\x27"⟩ ∧
    get_load_details .missing ref = .error ⟨503, "Load data file not available"⟩ ∧
    get_load_details .emptyFile ref = .error ⟨503, "Load data file is empty"⟩ ∧
    get_load_details .malformed ref = .error ⟨503, "Error parsing load data file"⟩ := by
  refine ⟨?_, rfl, rfl, rfl⟩
  simp [get_load_details, h]

/-- Claim C2, witness: the amended statement at the empty table and the
reference XYZ. -/
theorem C2_witness :
    get_load_details (.table []) "XYZ" =
      .error ⟨400, "Invalid reference number format. Must start with \x27LOAD\x27"⟩ ∧
    get_load_details .missing "XYZ" = .error ⟨503, "Load data file not available"⟩ ∧
    get_load_details .emptyFile "XYZ" = .error ⟨503, "Load data file is empty"⟩ ∧
    get_load_details .malformed "XYZ" = .error ⟨503, "Error parsing load data file"⟩ :=
  C2_amended_format_check_after_read [] "XYZ" (by decide)

/-! ### Claim C4 -/

/-- Claim C4: with a configured key, every identifier whose normalized form is
empty or contains a non-digit character is rejected with HTTP 400, and the
result does not depend on the registry oracle (no outbound call is made). -/
theorem C4_invalid_format_no_outbound_call (key mc : String)
    (reg reg2 : String → RegistryOutcome) (hkey : key ≠ "")
    (h : normalize mc = "" ∨ ∃ c ∈ (normalize mc).data, c.isDigit = false) :
    (∃ d, validate_mc_number (some key) reg mc = .error ⟨400, d⟩) ∧
    validate_mc_number (some key) reg mc = validate_mc_number (some key) reg2 mc := by
  have hfmt : pyIsDigit (normalize mc) = false := by
    rcases h with h | ⟨c, hc, hd⟩
    · rw [h]; decide
    · have hall : (normalize mc).data.all Char.isDigit = false := by
        rw [List.all_eq_false]
        exact ⟨c, hc, by simp [hd]⟩
      simp [pyIsDigit, hall]
  by_cases hmc : mc = ""
  · subst hmc
    have hval : ∀ r : String → RegistryOutcome,
        validate_mc_number (some key) r "" = .error ⟨400, "MC number is required"⟩ := by
      intro r
      simp [validate_mc_number, truthyStr, hkey]
    exact ⟨⟨_, hval reg⟩, (hval reg).trans (hval reg2).symm⟩
  · have hval : ∀ r : String → RegistryOutcome,
        validate_mc_number (some key) r mc =
          .error ⟨400, "Invalid MC number format. Must contain only digits after removing \x27MC-\x27 prefix"⟩ := by
      intro r
      simp [validate_mc_number, truthyStr, hkey, hmc, hfmt]
    exact ⟨⟨_, hval reg⟩, (hval reg).trans (hval reg2).symm⟩

/-- Claim C4, witness: the identifier abc (normalizing to ABC) is rejected
with 400 and the result is the same under two different registry oracles. -/
theorem C4_witness :
    (∃ d, validate_mc_number (some "k") (fun _ => .timeout) "abc" = .error ⟨400, d⟩) ∧
    validate_mc_number (some "k") (fun _ => .timeout) "abc" =
      validate_mc_number (some "k") (fun _ => .connError "x") "abc" :=
  C4_invalid_format_no_outbound_call "k" "abc" _ _ (by decide)
    (Or.inr ⟨'A', by decide, by decide⟩)

/-! ### Claim C5 -/

/-- Claim C5: on every successful validation, `status` is Active iff the
registry's allowedToOperate equals the literal Y; `status_reason` is Out of
Service whenever an oosDate value is present (nonempty), regardless of the
authorization flag; it is Not Authorized to Operate exactly when the carrier
is not authorized and no oosDate is present; and it is absent otherwise. -/
theorem C5_status_derivation (key mc : String) (reg : String → RegistryOutcome)
    (cd : CarrierData) (hk : Bool) (resp : CarrierResponse)
    (hkey : key ≠ "") (hfmt : pyIsDigit (normalize mc) = true)
    (hreg : reg (normalize mc) = .response 200 (some ⟨.obj ⟨.obj cd, hk⟩⟩))
    (hok : validate_mc_number (some key) reg mc = .ok resp) :
    (resp.carrier.status = "Active" ↔ pyGetD cd.allowedToOperate none = some "Y") ∧
    (truthyStr (pyGetD cd.oosDate none) = true →
      resp.carrier.status_reason = some "Out of Service") ∧
    (resp.carrier.status_reason = some "Not Authorized to Operate" ↔
      (pyGetD cd.allowedToOperate none ≠ some "Y" ∧
        truthyStr (pyGetD cd.oosDate none) = false)) ∧
    (resp.carrier.status_reason = none ↔
      (pyGetD cd.allowedToOperate none = some "Y" ∧
        truthyStr (pyGetD cd.oosDate none) = false)) := by
  have hv := validate_eq_handleOutcome key reg mc hkey hfmt
  rw [hreg] at hv
  rw [hv] at hok
  have hok' : processCarrier cd (normalize mc) = .ok resp := hok
  simp only [processCarrier] at hok'
  split at hok'
  · simp at hok'
  · obtain rfl := Except.ok.inj hok'
    by_cases hA : pyGetD cd.allowedToOperate none = some "Y"
    · by_cases hO : truthyStr (pyGetD cd.oosDate none) = true
      · simp [hA, hO]
      · simp [hA, hO]
    · by_cases hO : truthyStr (pyGetD cd.oosDate none) = true
      · simp [hA, hO]
      · simp [hA, hO]

/-- Claim C5, witness: the concrete active carrier with no oosDate. -/
theorem C5_witness :
    (goodResp.carrier.status = "Active" ↔
      pyGetD goodCarrier.allowedToOperate none = some "Y") ∧
    (truthyStr (pyGetD goodCarrier.oosDate none) = true →
      goodResp.carrier.status_reason = some "Out of Service") ∧
    (goodResp.carrier.status_reason = some "Not Authorized to Operate" ↔
      (pyGetD goodCarrier.allowedToOperate none ≠ some "Y" ∧
        truthyStr (pyGetD goodCarrier.oosDate none) = false)) ∧
    (goodResp.carrier.status_reason = none ↔
      (pyGetD goodCarrier.allowedToOperate none = some "Y" ∧
        truthyStr (pyGetD goodCarrier.oosDate none) = false)) :=
  C5_status_derivation "k" "MC-123456" goodReg goodCarrier false goodResp
    (by decide) (by decide) rfl rfl

/-! ### Claim C6 -/

/-- Claim C6: mapping of the outbound-call outcomes — timeout 504, other
transport failure 502 with the cause, received 404 mapped to 404 with an
identifier-specific message, received 401 mapped to 502 (credential invalid),
any other non-200 mapped to 502 with the raw status, and a 200 body that is
not parseable JSON mapped to 502. -/
theorem C6_registry_outcome_mapping (key mc : String) (reg : String → RegistryOutcome)
    (hkey : key ≠ "") (hfmt : pyIsDigit (normalize mc) = true) :
    (reg (normalize mc) = .timeout →
      validate_mc_number (some key) reg mc =
        .error ⟨504, "FMCSA API request timed out"⟩) ∧
    (∀ e, reg (normalize mc) = .connError e →
      validate_mc_number (some key) reg mc =
        .error ⟨502, "Error connecting to FMCSA API: " ++ e⟩) ∧
    (∀ body, reg (normalize mc) = .response 404 body →
      validate_mc_number (some key) reg mc =
        .error ⟨404, "Carrier with MC number " ++ normalize mc ++ " not found"⟩) ∧
    (∀ body, reg (normalize mc) = .response 401 body →
      validate_mc_number (some key) reg mc = .error ⟨502, "Invalid FMCSA API key"⟩) ∧
    (∀ s body, reg (normalize mc) = .response s body → s ≠ 404 → s ≠ 401 → s ≠ 200 →
      validate_mc_number (some key) reg mc =
        .error ⟨502, "FMCSA API error: " ++ toString s⟩) ∧
    (reg (normalize mc) = .response 200 none →
      validate_mc_number (some key) reg mc =
        .error ⟨502, "Invalid JSON response from FMCSA API"⟩) := by
  have hv := validate_eq_handleOutcome key reg mc hkey hfmt
  refine ⟨?_, ?_, ?_, ?_, ?_, ?_⟩
  · intro h
    rw [hv, h]
    rfl
  · intro e h
    rw [hv, h]
    rfl
  · intro body h
    rw [hv, h]
    rfl
  · intro body h
    rw [hv, h]
    rfl
  · intro s body h h404 h401 h200
    rw [hv, h]
    simp only [handleOutcome]
    rw [if_neg h404, if_neg h401, if_pos h200]
  · intro h
    rw [hv, h]
    rfl

/-- Claim C6, witness: the mapping under a registry that times out. -/
theorem C6_witness :
    ((fun _ : String => RegistryOutcome.timeout) (normalize "MC-123456") = .timeout →
      validate_mc_number (some "k") (fun _ => .timeout) "MC-123456" =
        .error ⟨504, "FMCSA API request timed out"⟩) ∧
    (∀ e, (fun _ : String => RegistryOutcome.timeout) (normalize "MC-123456") = .connError e →
      validate_mc_number (some "k") (fun _ => .timeout) "MC-123456" =
        .error ⟨502, "Error connecting to FMCSA API: " ++ e⟩) ∧
    (∀ body, (fun _ : String => RegistryOutcome.timeout) (normalize "MC-123456") = .response 404 body →
      validate_mc_number (some "k") (fun _ => .timeout) "MC-123456" =
        .error ⟨404, "Carrier with MC number " ++ normalize "MC-123456" ++ " not found"⟩) ∧
    (∀ body, (fun _ : String => RegistryOutcome.timeout) (normalize "MC-123456") = .response 401 body →
      validate_mc_number (some "k") (fun _ => .timeout) "MC-123456" =
        .error ⟨502, "Invalid FMCSA API key"⟩) ∧
    (∀ s body, (fun _ : String => RegistryOutcome.timeout) (normalize "MC-123456") = .response s body →
      s ≠ 404 → s ≠ 401 → s ≠ 200 →
      validate_mc_number (some "k") (fun _ => .timeout) "MC-123456" =
        .error ⟨502, "FMCSA API error: " ++ toString s⟩) ∧
    ((fun _ : String => RegistryOutcome.timeout) (normalize "MC-123456") = .response 200 none →
      validate_mc_number (some "k") (fun _ => .timeout) "MC-123456" =
        .error ⟨502, "Invalid JSON response from FMCSA API"⟩) :=
  C6_registry_outcome_mapping "k" "MC-123456" (fun _ => .timeout) (by decide) (by decide)

/-! ### Claim C7 -/

/-- Claim C7: the normalized identifier is the input uppercased, with every
MC- substring removed, then trimmed; MC-123456 normalizes to 123456; and
every successful CarrierResponse carries the normalized identifier as its
`mc_number`. -/
theorem C7_normalization (key : String) (reg : String → RegistryOutcome)
    (mc : String) (resp : CarrierResponse)
    (hok : validate_mc_number (some key) reg mc = .ok resp) :
    normalize mc = pyStrip (removeMC (pyUpper mc)) ∧
    normalize "MC-123456" = "123456" ∧
    resp.carrier.mc_number = normalize mc := by
  refine ⟨rfl, rfl, ?_⟩
  exact handleOutcome_ok_mc _ _ _ (validate_ok_handleOutcome _ reg mc resp hok)

/-- Claim C7, witness: the statement at the successful validation of
MC-123456 against the good registry. -/
theorem C7_witness :
    normalize "MC-123456" = pyStrip (removeMC (pyUpper "MC-123456")) ∧
    normalize "MC-123456" = "123456" ∧
    goodResp.carrier.mc_number = normalize "MC-123456" :=
  C7_normalization "k" goodReg "MC-123456" goodResp rfl

/-! ### Claim C8 -/

/-- Claim C8: when the first row matching the queried reference number has
required fields absent or NaN, `get_load_details` raises 500 whose detail
lists exactly the missing field names, never 404. -/
theorem C8_incomplete_row_500 (df : List Row) (ref : String) (row : Row) (rest : List Row)
    (href : pyStartsWith ref "LOAD" = true)
    (hmatch : df.filter (matchesRef ref) = row :: rest)
    (hmiss : missingFields row ≠ []) :
    get_load_details (.table df) ref =
      .error ⟨500, "Missing required fields in load data: " ++
        String.intercalate ", " (missingFields row)⟩ ∧
    resultStatus (get_load_details (.table df) ref) ≠ 404 := by
  have hmain : get_load_details (.table df) ref =
      .error ⟨500, "Missing required fields in load data: " ++
        String.intercalate ", " (missingFields row)⟩ := by
    simp only [get_load_details, href, Bool.not_true, Bool.false_eq_true, if_false, hmatch]
    rw [if_neg hmiss]
  refine ⟨hmain, ?_⟩
  rw [hmain]
  simp [resultStatus]

/-- Claim C8, witness: a dataset whose only LOAD001 row has a NaN rate yields
the 500 error naming rate. -/
theorem C8_witness :
    get_load_details (.table [badRow]) "LOAD001" =
      .error ⟨500, "Missing required fields in load data: rate"⟩ ∧
    resultStatus (get_load_details (.table [badRow]) "LOAD001") ≠ 404 :=
  C8_incomplete_row_500 [badRow] "LOAD001" badRow [] (by decide) rfl (by decide)

/-! ### Claim C9 -/

/-- Claim C9: the carrier name is the legal name, with the trade name used
only when the legalName key is absent; whenever the resulting name or the DOT
number is absent or empty the validation fails with 502; in particular a
legalName present but empty fails with 502 without using dbaName. -/
theorem C9_carrier_name_fallback (cd : CarrierData) (clean : String) :
    (∀ v : Option String, cd.legalName = some v →
      pyGetD cd.legalName (pyGetD cd.dbaName (some "")) = v) ∧
    (cd.legalName = none →
      pyGetD cd.legalName (pyGetD cd.dbaName (some "")) = pyGetD cd.dbaName (some "")) ∧
    ((truthyStr (pyGetD cd.legalName (pyGetD cd.dbaName (some ""))) = false ∨
        truthyStr (pyGetD cd.dotNumber none) = false) →
      processCarrier cd clean =
        .error ⟨502, "Incomplete carrier data received from FMCSA API"⟩) ∧
    (cd.legalName = some (some "") →
      processCarrier cd clean =
        .error ⟨502, "Incomplete carrier data received from FMCSA API"⟩) := by
  have h502 : (truthyStr (pyGetD cd.legalName (pyGetD cd.dbaName (some ""))) = false ∨
      truthyStr (pyGetD cd.dotNumber none) = false) →
      processCarrier cd clean =
        .error ⟨502, "Incomplete carrier data received from FMCSA API"⟩ := by
    intro h
    have hcond : (!truthyStr (pyGetD cd.legalName (pyGetD cd.dbaName (some ""))) ||
        !truthyStr (pyGetD cd.dotNumber none)) = true := by
      rcases h with h | h <;> simp [h]
    simp [processCarrier, hcond]
  refine ⟨?_, ?_, h502, ?_⟩
  · intro v hv
    simp [pyGetD, hv]
  · intro hv
    simp [pyGetD, hv]
  · intro hv
    apply h502
    left
    simp [pyGetD, hv, truthyStr]

/-- Claim C9, witness: a carrier section with an empty legalName, a nonempty
dbaName and a DOT number still fails with 502 (no fallback to dbaName). -/
theorem C9_witness :
    processCarrier
        ⟨some (some ""), some (some "FALLBACK LLC"), some (some "123"), none, none⟩ "42" =
      .error ⟨502, "Incomplete carrier data received from FMCSA API"⟩ :=
  (C9_carrier_name_fallback
      ⟨some (some ""), some (some "FALLBACK LLC"), some (some "123"), none, none⟩ "42").2.2.2 rfl

/-! ### Claim C10 -/

/-- Claim C10: normalization removes every occurrence of MC- anywhere in the
uppercased input, not only a leading one: 123MC-456 normalizes to 123456,
passes the all-digits check, and the outbound call is made on 123456. -/
theorem C10_replace_removes_all_occurrences (key : String)
    (reg : String → RegistryOutcome) (hkey : key ≠ "") :
    normalize "123MC-456" = "123456" ∧
    pyIsDigit (normalize "123MC-456") = true ∧
    validate_mc_number (some key) reg "123MC-456" = handleOutcome (reg "123456") "123456" := by
  refine ⟨rfl, rfl, ?_⟩
  exact validate_eq_handleOutcome key reg "123MC-456" hkey (by decide)

/-- Claim C10, witness: the statement at a concrete key and registry. -/
theorem C10_witness :
    normalize "123MC-456" = "123456" ∧
    pyIsDigit (normalize "123MC-456") = true ∧
    validate_mc_number (some "k") goodReg "123MC-456" = handleOutcome (goodReg "123456") "123456" :=
  C10_replace_removes_all_occurrences "k" goodReg (by decide)

end App
